import Mathlib

/-!
Shallow embedding of the homebridge-appletv-enhanced core
(src/appleTVEnhancedAccessory.ts, src/RocketRemote.ts, and the
PythonChecker module) in Lean 4, together with theorems settling the
specification claims about it.

JavaScript string operations are modelled on `List Char` with structural
recursion so that every definition reduces in the kernel.
-/

namespace ATVE

/-- Model of a JavaScript whitespace test (ASCII fragment, the only part
exercised by the repository's strings). -/
def isWsp (c : Char) : Bool := c = ' ' || c = '\t' || c = '\n' || c = '\r'

/-- Model of `String.prototype.trim`. -/
def trimCL (cs : List Char) : List Char :=
  ((cs.dropWhile isWsp).reverse.dropWhile isWsp).reverse

/-- Model of `String.prototype.trim` on `String`. -/
def jsTrim (s : String) : String := (trimCL s.toList).asString

/-- Whether `p` is a prefix of `s`, as a boolean on char lists. -/
def prefixCL : List Char → List Char → Bool
  | [], _ => true
  | _ :: _, [] => false
  | p :: ps, c :: cs => p = c && prefixCL ps cs

/-- Index of the first occurrence of `sep` in `s` (model of
`String.prototype.search` with a literal pattern / `indexOf`). -/
def findSub (sep : List Char) : List Char → Option Nat
  | [] => if sep.isEmpty then some 0 else none
  | c :: cs => if prefixCL sep (c :: cs) then some 0 else (findSub sep cs).map (· + 1)

/-- Model of `String.prototype.includes`. -/
def jsIncludes (s pat : String) : Bool := (findSub pat.toList s.toList).isSome

/-- Fuelled splitting on a separator; fuel `s.length + 1` is always enough
for a non-empty separator. -/
def splitOnFuel (sep : List Char) : Nat → List Char → List (List Char)
  | 0, s => [s]
  | Nat.succ fuel, s =>
    match findSub sep s with
    | none => [s]
    | some i => s.take i :: splitOnFuel sep fuel (s.drop (i + sep.length))

/-- Model of `String.prototype.split` with a non-empty literal separator. -/
def jsSplit (s sep : String) : List String :=
  (splitOnFuel sep.toList (s.toList.length + 1) s.toList).map List.asString

/-- Everything after the first occurrence of `pat` in `s`; model of
`data.substring(data.search(pat) + pat.length)` when `pat` occurs in `s`. -/
def afterFirst (s pat : String) : String :=
  match findSub pat.toList s.toList with
  | some i => (s.toList.drop (i + pat.toList.length)).asString
  | none => s

/-- Model of `String.prototype.replace` with a literal pattern: replaces
only the first occurrence. -/
def replaceFirst (s pat rep : String) : String :=
  match findSub pat.toList s.toList with
  | some i => ((s.toList.take i) ++ rep.toList ++ (s.toList.drop (i + pat.toList.length))).asString
  | none => s

/-- Model of `String.prototype.charAt`: a one-character string, or the
empty string out of range. -/
def jsCharAt (s : String) (i : Nat) : String :=
  match s.toList.drop i with
  | [] => ""
  | c :: _ => String.singleton c

/-- Numeric value of a digit run. -/
def digitsToNat (ds : List Char) : Nat :=
  ds.foldl (fun a c => a * 10 + (c.toNat - 48)) 0

/-- Leading digit run of a char list, `none` when there is none. -/
def leadDigits (cs : List Char) : Option Nat :=
  let ds := cs.takeWhile Char.isDigit
  if ds.isEmpty then none else some (digitsToNat ds)

/-- Model of JavaScript `parseInt` (base 10): skip leading whitespace, an
optional sign, then the maximal digit run; `none` models `NaN`. -/
def jsParseInt (s : String) : Option Int :=
  match (s.toList.dropWhile isWsp) with
  | '-' :: rest => (leadDigits rest).map (fun n => -(n : Int))
  | '+' :: rest => (leadDigits rest).map (fun n => (n : Int))
  | cs => (leadDigits cs).map (fun n => (n : Int))

/-- ASCII upper-casing of a string, model of `String.prototype.toUpperCase`
on the ASCII data the pairing subprocess emits. -/
def jsToUpper (s : String) : String := (s.toList.map Char.toUpper).asString

example : jsSplit "a=1&b=2" "&" = ["a=1", "b=2"] := by decide
example : jsIncludes "xxBackOff=12s" "BackOff=" = true := by decide
example : afterFirst "xxBackOff=12s" "BackOff=" = "12s" := by decide
example : jsParseInt "12" = some 12 := by decide
example : jsTrim "  ab " = "ab" := by decide

/-! ### Pairing loop (appleTVEnhancedAccessory.ts, `pair`)

The mutable flags of one pairing iteration: `goOn`, `success`,
`credentials` and `backOffSeconds`.  JavaScript numbers that can become
`NaN` (`parseInt` of a non-number) are modelled as `Option Int`, `none`
standing for `NaN`. -/

structure PairState where
  goOn : Bool
  success : Bool
  credentials : String
  backOffSeconds : Option Int
deriving Repr, DecidableEq

/-- Flag state at the start of a pairing iteration (`goOn`/`success` start
the whole `pair` call as `false`, `backOffSeconds` each iteration as 0). -/
def pairInitState : PairState :=
  { goOn := false, success := false, credentials := "", backOffSeconds := some 0 }

/-- The `process.stdout.on('data', ...)` handler of `pair`: classifies one
stdout chunk, first match wins, in source order (PIN prompt, `BackOff=`,
case-insensitive `error`, success marker). -/
def stdoutHandler (data : String) (st : PairState) : PairState :=
  if jsIncludes data "Enter PIN on screen:" then
    st
  else if jsIncludes data "BackOff=" then
    { st with
      backOffSeconds :=
        (jsParseInt ((jsSplit (afterFirst data "BackOff=") "s").headD "")).map (· + 5),
      goOn := true }
  else if jsIncludes (jsToUpper data) "ERROR" then
    { st with goOn := true }
  else if jsIncludes data "You may now use these credentials: " then
    { st with
      credentials := jsTrim ((jsSplit data ": ").getD 1 ""),
      goOn := true,
      success := true }
  else
    st

/-- The `process.stderr.on('data', ...)` handler of `pair`. -/
def stderrHandler (st : PairState) : PairState := { st with goOn := true }

/-- Number of one-second `delay(1000)` ticks performed by the back-off
loop `for (; backOffSeconds > 0; backOffSeconds--)` at the end of a
pairing iteration (`NaN > 0` and `n ≤ 0` yield zero iterations). -/
def backOffWaitTicks : Option Int → Nat
  | none => 0
  | some n => n.toNat

example : (stdoutHandler "BackOff=12s" pairInitState).backOffSeconds = some 17 := by decide
example : (stdoutHandler "Enter PIN on screen:" pairInitState).goOn = false := by decide

/-! ### Power handlers (appleTVEnhancedAccessory.ts)

`handleActiveSet` and `handleActiveUpdate`.  HomeKit `Active` values are
numbers: `ACTIVE = 1`, `INACTIVE = 0`.  Timestamps (`Date.now()`,
`lastOnEvent`) are naturals in milliseconds. -/

/-- HomeKit `Characteristic.Active.ACTIVE`. -/
def ACTIVE : Nat := 1

/-- HomeKit `Characteristic.Active.INACTIVE`. -/
def INACTIVE : Nat := 0

/-- One observation of `device.getState()` during the turn-on wait loop:
`(mediaType, deviceState)`, `none` for a `null` report. -/
def StateObs := Option String × Option String

/-- The turn-on wait loop of `handleActiveSet`: polls `getState` for up to
120 iterations (250 ms steps within 30 s); an iteration where either
value is `null` just waits; the first fully reported iteration produces
the `MotionDetected = true` writes for the sensors that exist and breaks.
`obs` is the sequence of observations the device would report. -/
def pollStates (mts dss : String → Bool) : List StateObs → List (String × Bool)
  | [] => []
  | (mt, ds) :: rest =>
    match mt, ds with
    | some m, some d =>
      (if mts m then [(m, true)] else []) ++ (if dss d then [(d, true)] else [])
    | some _, none => pollStates mts dss rest
    | none, _ => pollStates mts dss rest

/-- Result of one `handleActiveSet` invocation: which device commands were
forwarded, the updated `lastOnEvent`/`turningOn` fields, and the motion
sensor writes of the turn-on wait loop. -/
structure ActiveSetResult where
  turnOnInvoked : Bool
  turnOffInvoked : Bool
  lastOnEvent : Nat
  turningOn : Bool
  motionWrites : List (String × Bool)
deriving Repr, DecidableEq

/-- `handleActiveSet(state)`: the `Active` characteristic set handler.
`state` is the HomeKit target value, `turningOn`/`lastOnEvent` the
accessory fields at entry, `now` is `Date.now()`, `mts`/`dss` tell which
media-type / device-state sensors exist, `obs` the `getState` oracle.
The 30 s wait loop runs at most 120 iterations, so only `obs.take 120`
matters. -/
def handleActiveSet (state : Nat) (turningOn : Bool) (lastOnEvent now : Nat)
    (mts dss : String → Bool) (obs : List StateObs) : ActiveSetResult :=
  if state = ACTIVE ∧ ¬turningOn then
    { turnOnInvoked := true
      turnOffInvoked := false
      lastOnEvent := now
      turningOn := false
      motionWrites := pollStates mts dss (obs.take 120) }
  else if state = INACTIVE ∧ lastOnEvent + 7500 < now then
    { turnOnInvoked := false
      turnOffInvoked := true
      lastOnEvent := lastOnEvent
      turningOn := turningOn
      motionWrites := [] }
  else
    { turnOnInvoked := false
      turnOffInvoked := false
      lastOnEvent := lastOnEvent
      turningOn := turningOn
      motionWrites := [] }

/-- `handleActiveUpdate(event)`: the `update:powerState` event handler.
Returns the value written to the `Active` characteristic, or `none` when
the handler returns without writing. -/
def handleActiveUpdate (value oldValue : Option String) (lastOnEvent now : Nat) :
    Option Nat :=
  match value with
  | none => none
  | some v =>
    if some v = oldValue then none
    else
      let a := if v = "on" then ACTIVE else INACTIVE
      if a = INACTIVE ∧ lastOnEvent + 7500 > now then none
      else some a

example : handleActiveUpdate (some "off") (some "on") 0 1000 = none := by decide
example : handleActiveUpdate (some "off") (some "on") 0 20000 = some 0 := by decide
example : handleActiveUpdate (some "on") (some "off") 0 1000 = some 1 := by decide

/-! ### Sensor event handlers (appleTVEnhancedAccessory.ts)

`handleDeviceStateUpdate` and `handleMediaTypeUpdate`.  Their observable
effect is a list of `MotionDetected` characteristic writes
`(sensorName, value)` plus, for device state, an optional
`CurrentMediaState` write. -/

/-- HomeKit `CurrentMediaState` values used by the device-state handler. -/
def CMS_PLAY : Nat := 0

/-- HomeKit `CurrentMediaState.PAUSE`. -/
def CMS_PAUSE : Nat := 1

/-- HomeKit `CurrentMediaState.STOP`. -/
def CMS_STOP : Nat := 2

/-- HomeKit `CurrentMediaState.LOADING`. -/
def CMS_LOADING : Nat := 4

/-- HomeKit `CurrentMediaState.INTERRUPTED`. -/
def CMS_INTERRUPTED : Nat := 5

/-- The `switch (event.value)` at the end of `handleDeviceStateUpdate`:
the `CurrentMediaState` write for a device-state value (`none` when the
value hits no case). -/
def mediaStateFor : Option String → Option Nat
  | some "playing" => some CMS_PLAY
  | some "paused" => some CMS_PAUSE
  | some "stopped" => some CMS_STOP
  | some "loading" => some CMS_LOADING
  | none => some CMS_INTERRUPTED
  | some _ => none

/-- `handleDeviceStateUpdate(event)`: first clears the old value's motion
sensor (when present), then returns early if the accessory's `Active`
characteristic is `INACTIVE`, otherwise sets the new value's motion
sensor (when present) and updates `CurrentMediaState`.  `dss` tells which
device-state sensors exist, `active` is the `Active` characteristic
value.  Result: `(MotionDetected writes, CurrentMediaState write)`. -/
def handleDeviceStateUpdate (dss : String → Bool) (active : Nat)
    (oldValue value : Option String) : List (String × Bool) × Option Nat :=
  let clearOld : List (String × Bool) :=
    match oldValue with
    | some ov => if dss ov then [(ov, false)] else []
    | none => []
  if active = INACTIVE then
    (clearOld, none)
  else
    let setNew : List (String × Bool) :=
      match value with
      | some v => if dss v then [(v, true)] else []
      | none => []
    (clearOld ++ setNew, mediaStateFor value)

/-- `handleMediaTypeUpdate(event)`: same shape as the device-state handler
but with media-type sensors and no `CurrentMediaState` write. -/
def handleMediaTypeUpdate (mts : String → Bool) (active : Nat)
    (oldValue value : Option String) : List (String × Bool) :=
  let clearOld : List (String × Bool) :=
    match oldValue with
    | some ov => if mts ov then [(ov, false)] else []
    | none => []
  if active = INACTIVE then
    clearOld
  else
    clearOld ++
      (match value with
       | some v => if mts v then [(v, true)] else []
       | none => [])

/-! ### Per-device file artifacts (appleTVEnhancedAccessory.ts)

`getPath`, `getCredentials`, `saveCredentials`.  The per-device directory
is modelled as a map from file name to optional content (`none` = the
file does not exist). -/

/-- The per-device storage directory: file name to content. -/
def FileSys := String → Option String

/-- `getPath(file, defaultContent)`: writes `defaultContent` with the
exclusive `wx` flag and swallows the error when the file already exists,
so an existing file keeps its content and a missing one is created with
the default.  Returns the updated directory. -/
def getPath (fs : FileSys) (file dflt : String) : FileSys :=
  fun f => if f = file then some ((fs file).getD dflt) else fs f

/-- `getCredentials()`: `getPath('credentials.txt', '')` then read and
trim.  Returns the trimmed credentials and the directory afterwards. -/
def getCredentials (fs : FileSys) : String × FileSys :=
  let fs2 := getPath fs "credentials.txt" ""
  (jsTrim ((fs2 "credentials.txt").getD ""), fs2)

/-- `saveCredentials(credentials)`: `getPath('credentials.txt', '')` then
an overwriting write (`flag: 'w'`) of the credentials. -/
def saveCredentials (fs : FileSys) (credentials : String) : FileSys :=
  let fs2 := getPath fs "credentials.txt" ""
  fun f => if f = "credentials.txt" then some credentials else fs2 f

/-! ### Pairing HTTP POST listener (appleTVEnhancedAccessory.ts, `pair`)

`const [a, b, c, d] = reqBody.split('&').map((e) => e.charAt(2))`;
`pin = a + b + c + d`; the listener then writes `pin + '\n'` to the
pairing subprocess's stdin.  A missing field destructures to `undefined`,
which the template literal renders as the text `undefined`. -/

/-- The PIN the request listener reconstructs from a POST body. -/
def extractPin (reqBody : String) : String :=
  let mapped := (jsSplit reqBody "&").map (fun e => jsCharAt e 2)
  (mapped.getD 0 "undefined") ++ (mapped.getD 1 "undefined") ++
    (mapped.getD 2 "undefined") ++ (mapped.getD 3 "undefined")

/-- What the POST branch writes to the pairing subprocess's stdin. -/
def pinStdinWrite (reqBody : String) : String := extractPin reqBody ++ "\n"

example : extractPin "a=1&b=2&c=3&d=4" = "1234" := by decide

/-! ### RocketRemote close/heartbeat behaviour (RocketRemote.ts)

`initHeartbeat` arms a 15 s interval that writes `app_list\n` to the
subprocess stdin; `onClose(f)` registers a `once('close', ...)` handler
that deregisters the stream listeners, `clearInterval`s the heartbeat and
invokes `f`.  Modelled as a trace machine: the events are heartbeat timer
ticks and the subprocess close event; the `once` registration and the
cleared interval are reflected in the step function. -/

/-- Scheduler events relevant to a RocketRemote instance. -/
inductive RREvent where
  | tick
  | close
deriving Repr, DecidableEq

/-- Observable RocketRemote state: whether the close handler already ran,
how often the registered callback fired, and how many heartbeat
`app_list\n` writes happened. -/
structure RRState where
  closed : Bool
  cbFired : Nat
  hbWrites : Nat
deriving Repr, DecidableEq

/-- State after `initProcess` has run and `onClose(f)` registered. -/
def rrInit : RRState := { closed := false, cbFired := 0, hbWrites := 0 }

/-- One scheduler event.  A timer tick writes `app_list\n` unless the
interval was cleared by the close handler; the close event runs the
`once` handler (clearing the interval and firing the callback) only the
first time. -/
def rrStep (s : RRState) : RREvent → RRState
  | RREvent.tick => if s.closed then s else { s with hbWrites := s.hbWrites + 1 }
  | RREvent.close => if s.closed then s else { s with closed := true, cbFired := s.cbFired + 1 }

/-- Run a trace of scheduler events. -/
def rrRun : RRState → List RREvent → RRState
  | s, [] => s
  | s, e :: rest => rrRun (rrStep s e) rest

example : (rrRun rrInit [RREvent.tick, RREvent.close, RREvent.tick]).cbFired = 1 := by decide
example : (rrRun rrInit [RREvent.tick, RREvent.close, RREvent.tick]).hbWrites = 1 := by decide

/-! ### PythonChecker (PythonChecker.ts)

`allInOne` runs the environment steps in order.  The environment (file
system, subprocess outputs, network answer) is an oracle record; the run
produces the updated checker state and the list of performed external
actions, so that "no venv-creation subprocess and no pip-install
subprocess" is a statement about the action list. -/

/-- JS-object insertion (later assignment overwrites the key). -/
def objSet (m : List (String × Option String)) (k : String) (v : Option String) :
    List (String × Option String) :=
  (k, v) :: m.filter (fun p => p.1 != k)

/-- JS-object lookup (`undefined`, i.e. `none`, when absent or stored as
undefined). -/
def objGet (m : List (String × Option String)) (k : String) : Option String :=
  match m.find? (fun p => p.1 == k) with
  | some p => p.2
  | none => none

/-- `replaceAll('_', '-')` on a package name. -/
def underscoreToDash (s : String) : String :=
  (s.toList.map (fun c => if c = '_' then '-' else c)).asString

/-- `freezeStringToObject`: trim, split into lines, split each line on
`==` into package and version, normalise underscores to hyphens in the
package name. -/
def freezeToObj (value : String) : List (String × Option String) :=
  (jsSplit (jsTrim value) "\n").foldl
    (fun m line =>
      let parts := jsSplit line "=="
      objSet m (underscoreToDash (parts.headD "")) (parts.get? 1))
    []

/-- Attempt to match the regex `\d+\.\d+\.\d+` at the head of a char
list. -/
def matchVer3 (cs : List Char) : Option (Nat × Nat × Nat) :=
  let d1 := cs.takeWhile Char.isDigit
  let r1 := cs.dropWhile Char.isDigit
  if d1.isEmpty then none else
  match r1 with
  | '.' :: r2 =>
    let d2 := r2.takeWhile Char.isDigit
    let r3 := r2.dropWhile Char.isDigit
    if d2.isEmpty then none else
    match r3 with
    | '.' :: r4 =>
      let d3 := r4.takeWhile Char.isDigit
      if d3.isEmpty then none
      else some (digitsToNat d1, digitsToNat d2, digitsToNat d3)
    | _ => none
  | _ => none

/-- Leftmost match of `\d+\.\d+\.\d+` in a char list (model of
`String.prototype.match` with that regex). -/
def firstVer3 : List Char → Option (Nat × Nat × Nat)
  | [] => none
  | c :: cs =>
    match matchVer3 (c :: cs) with
    | some v => some v
    | none => firstVer3 cs

/-- `compareVersions a b !== 1` for three-component dotted versions:
lexicographic `a ≤ b`. -/
def ver3Le (a b : Nat × Nat × Nat) : Bool :=
  if a.1 < b.1 then true
  else if b.1 < a.1 then false
  else if a.2.1 < b.2.1 then true
  else if b.2.1 < a.2.1 then false
  else if a.2.2 ≤ b.2.2 then true
  else false

/-- Oracle for the environment `allInOne` runs against: file-system
facts, the stdout each external command would produce, and the network
answer (`latestPipVersion` is `getMostRecentPipVersion`'s result, with
its error fallback string folded in). -/
structure PyEnv where
  pluginDirExists : Bool
  opensslOutput : String
  pythonVersionRaw : String
  venvPipExists : Bool
  venvConfigExists : Bool
  venvPythonExists : Bool
  venvPythonHomeRaw : String
  systemPythonHomeRaw : String
  venvPipVersionRaw : String
  latestPipVersion : String
  freezeOutput : String
  requirementsDefault : String
  requirementsLegacy : String
  venvCreateOk : Bool
deriving Repr, DecidableEq

/-- Checker state during an `allInOne` run: the environment plus the
legacy-mode switch (the mutated `requirementsPath` /
`supportedPythonVersions` pair). -/
structure ChkState where
  env : PyEnv
  legacy : Bool
deriving Repr, DecidableEq

/-- External actions an `allInOne` run can perform. -/
inductive PyAction where
  | mkPluginDir
  | runOpenssl
  | runPythonVersionCmd
  | createVenvCmd
  | runPythonHomeCmd
  | runPipVersionCmd
  | fetchPipJson
  | pipUpgradeCmd
  | runPipFreezeCmd
  | pipInstallCmd
  | blockForever
deriving Repr, DecidableEq

/-- The module-level supported interpreter versions list. -/
def basePythonVersions : List String := ["3.8", "3.9", "3.10", "3.11", "3.12"]

/-- The supported versions after the openssl step possibly dropped 3.12. -/
def supportedVersions (legacy : Bool) : List String :=
  if legacy then basePythonVersions.filter (fun e => e ≠ "3.12") else basePythonVersions

/-- `isVenvCreated()`. -/
def isVenvCreated (env : PyEnv) : Bool :=
  env.venvPipExists && env.venvConfigExists && env.venvPythonExists

/-- `createVenv()`: spawns `python -m venv --clear`; on failure it blocks
forever with a repeating warning (the `blockForever` action). -/
def createVenv (s : ChkState) : ChkState × List PyAction :=
  if s.env.venvCreateOk then
    ({ s with env := { s.env with
        venvPipExists := true, venvConfigExists := true, venvPythonExists := true } },
     [PyAction.createVenvCmd])
  else
    (s, [PyAction.createVenvCmd, PyAction.blockForever])

/-- `ensurePluginDir()`. -/
def ensurePluginDir (s : ChkState) : ChkState × List PyAction :=
  if s.env.pluginDirExists then (s, [])
  else ({ s with env := { s.env with pluginDirExists := true } }, [PyAction.mkPluginDir])

/-- Whether the openssl step switches to legacy mode: the first
`\d+\.\d+\.\d+` match of `openssl version` is missing or below 3.0.0. -/
def opensslLegacy (env : PyEnv) : Bool :=
  match firstVer3 env.opensslOutput.toList with
  | some v => !(ver3Le (3, 0, 0) v)
  | none => true

/-- `openSSL()`: runs `openssl version`, extracts the first
`\d+\.\d+\.\d+` match and compares it against the 3.0.0 minimum; on an
old or unparseable version switches to the legacy requirements manifest
and drops Python 3.12 from the supported set. -/
def stepOpenssl (s : ChkState) : ChkState × List PyAction :=
  if opensslLegacy s.env then ({ s with legacy := true }, [PyAction.runOpenssl])
  else (s, [PyAction.runOpenssl])

/-- `getSystemPythonVersion()`: stdout of `python3 --version`, trimmed,
with the first `Python ` removed. -/
def systemPythonVersion (env : PyEnv) : String :=
  replaceFirst (jsTrim env.pythonVersionRaw) "Python " ""

/-- `ensurePythonVersion()`: blocks forever unless some supported version
is a substring of the reported version. -/
def ensurePythonVersion (s : ChkState) : ChkState × List PyAction :=
  let ver := systemPythonVersion s.env
  if (supportedVersions s.legacy).any (fun e => jsIncludes ver e) then
    (s, [PyAction.runPythonVersionCmd])
  else
    (s, [PyAction.runPythonVersionCmd, PyAction.blockForever])

/-- `ensureVenvCreated(forceVenvRecreate)`. -/
def ensureVenvCreated (force : Bool) (s : ChkState) : ChkState × List PyAction :=
  if force then createVenv s
  else if isVenvCreated s.env = false then createVenv s
  else (s, [])

/-- `ensureVenvUsesCorrectPythonHome()`: compares the two
`determinePythonHome.py` outputs (trimmed) and recreates the venv on
mismatch. -/
def ensureVenvPythonHome (s : ChkState) : ChkState × List PyAction :=
  if jsTrim s.env.venvPythonHomeRaw = jsTrim s.env.systemPythonHomeRaw then
    (s, [PyAction.runPythonHomeCmd, PyAction.runPythonHomeCmd])
  else
    let (s2, a) := createVenv s
    (s2, [PyAction.runPythonHomeCmd, PyAction.runPythonHomeCmd] ++ a)

/-- `getVenvPipVersion()`: stdout of `pip3 --version`, trimmed, first
`pip ` removed, first space-separated token. -/
def venvPipVersion (env : PyEnv) : String :=
  (jsSplit (replaceFirst (jsTrim env.venvPipVersionRaw) "pip " "") " ").headD ""

/-- `ensureVenvPipUpToDate()`: compares the venv pip version with the
latest published one and runs `pip install --upgrade pip` when behind. -/
def ensureVenvPipUpToDate (s : ChkState) : ChkState × List PyAction :=
  if venvPipVersion s.env = s.env.latestPipVersion then
    (s, [PyAction.runPipVersionCmd, PyAction.fetchPipJson])
  else
    (s, [PyAction.runPipVersionCmd, PyAction.fetchPipJson, PyAction.pipUpgradeCmd])

/-- The requirements manifest contents in effect (default or openssl
legacy). -/
def effectiveRequirements (s : ChkState) : String :=
  if s.legacy then s.env.requirementsLegacy else s.env.requirementsDefault

/-- `areRequirementsSatisfied()`: every pinned requirement must be in the
`pip freeze` output at exactly the pinned version, package names
normalised by `replaceAll('_', '-')` on both sides. -/
def areRequirementsSatisfied (s : ChkState) : Bool :=
  let freeze := freezeToObj s.env.freezeOutput
  (freezeToObj (effectiveRequirements s)).all (fun p => decide (objGet freeze p.1 = p.2))

/-- `ensureVenvRequirementsSatisfied()`: `pip freeze`, then
`pip install -r requirements.txt` when some pin mismatches. -/
def ensureVenvReqs (s : ChkState) : ChkState × List PyAction :=
  if areRequirementsSatisfied s then (s, [PyAction.runPipFreezeCmd])
  else (s, [PyAction.runPipFreezeCmd, PyAction.pipInstallCmd])

/-- `allInOne(forceVenvRecreate)`: the full check sequence in source
order. -/
def allInOne (env : PyEnv) (force : Bool) : ChkState × List PyAction :=
  let s0 : ChkState := { env := env, legacy := false }
  let (s1, a1) := ensurePluginDir s0
  let (s2, a2) := stepOpenssl s1
  let (s3, a3) := ensurePythonVersion s2
  let (s4, a4) := ensureVenvCreated force s3
  let (s5, a5) := ensureVenvPythonHome s4
  let (s6, a6) := ensureVenvPipUpToDate s5
  let (s7, a7) := ensureVenvReqs s6
  (s7, a1 ++ a2 ++ a3 ++ a4 ++ a5 ++ a6 ++ a7)

/-- A concrete fully satisfied environment, used to exercise the checker
model on closed inputs. -/
def pyEnvSat : PyEnv :=
  { pluginDirExists := true
    opensslOutput := "OpenSSL 3.0.2 15 Mar 2022"
    pythonVersionRaw := "Python 3.11.2"
    venvPipExists := true
    venvConfigExists := true
    venvPythonExists := true
    venvPythonHomeRaw := "/usr\n"
    systemPythonHomeRaw := "/usr\n"
    venvPipVersionRaw := "pip 24.0 from /x (python 3.11)"
    latestPipVersion := "24.0"
    freezeOutput := "pyatv==0.14.5\nrequests==2.31.0"
    requirementsDefault := "pyatv==0.14.5\nrequests==2.31.0"
    requirementsLegacy := "pyatv==0.13.4"
    venvCreateOk := true }

example : (allInOne pyEnvSat false).2 =
    [PyAction.runOpenssl, PyAction.runPythonVersionCmd, PyAction.runPythonHomeCmd,
     PyAction.runPythonHomeCmd, PyAction.runPipVersionCmd, PyAction.fetchPipJson,
     PyAction.runPipFreezeCmd] := by decide

/-! ## Theorems settling the claims -/

/-- C1, counterexample: at `lastOnEvent = 0` and `t = 7500` exactly, the
claim demands that `device.turnOff()` is invoked (since
`t - lastOnEvent < 7500` fails), but `handleActiveSet` suppresses the
off-command because its guard is the strict `lastOnEvent + 7500 < t`. -/
theorem C1_counterexample :
    ¬((7500 : Nat) - 0 < 7500) ∧
      (handleActiveSet INACTIVE false 0 7500 (fun _ => false) (fun _ => false)
        []).turnOffInvoked = false := by
  constructor
  · decide
  · rfl

/-- C1, amended: for a power-off command at time `t`, the off-command is
not forwarded to the device if and only if `t - lastOnEvent ≤ 7500` ms
(the boundary instant belongs to the suppression window); otherwise
`device.turnOff()` is invoked. -/
theorem C1_off_suppressed_iff (turningOn : Bool) (lastOnEvent now : Nat)
    (mts dss : String → Bool) (obs : List StateObs) :
    (handleActiveSet INACTIVE turningOn lastOnEvent now mts dss obs).turnOffInvoked = false ↔
      now - lastOnEvent ≤ 7500 := by
  by_cases h : lastOnEvent + 7500 < now <;>
    simp [handleActiveSet, ACTIVE, INACTIVE, h] <;> omega

/-- C2: a power-state event whose value maps to off, arriving within
7500 ms of the last power-on command, makes `handleActiveUpdate` return
without writing the `Active` characteristic; a null value, or a value
equal to the old one, likewise produces no write. -/
theorem C2_off_event_no_write (value oldValue : Option String) (lastOnEvent now : Nat)
    (h : value = none ∨ value = oldValue ∨
      (∃ v, value = some v ∧ v ≠ "on" ∧ now - lastOnEvent < 7500)) :
    handleActiveUpdate value oldValue lastOnEvent now = none := by
  rcases h with h | h | ⟨v, hv, hon, ht⟩
  · subst h; rfl
  · cases value with
    | none => rfl
    | some v => simp [handleActiveUpdate, ← h]
  · subst hv
    simp only [handleActiveUpdate]
    by_cases he : some v = oldValue
    · rw [if_pos he]
    · rw [if_neg he]
      simp only [if_neg hon]
      rw [if_pos ⟨trivial, by omega⟩]

/-- C2, witness: a concrete off event 100 ms after the power-on command
is swallowed. -/
theorem C2_witness :
    ((100 : Nat) - 0 < 7500) ∧ handleActiveUpdate (some "off") (some "on") 0 100 = none :=
  ⟨by decide, C2_off_event_no_write _ _ _ _ (Or.inr (Or.inr ⟨"off", rfl, by decide, by decide⟩))⟩

/-- C3, counterexample: a stdout chunk containing the PIN-prompt marker
does not set the `goOn` flag — the handler returns with the flag still
`false`, refuting the claim that the PIN-prompt marker sets `goOn`. -/
theorem C3_counterexample :
    (stdoutHandler "Enter PIN on screen:" pairInitState).goOn = false := by decide

/-- C3, amended: in the pairing loop's stdout classification (first match
wins, in the order PIN prompt, `BackOff=`, case-insensitive error,
success marker), a line containing the PIN-prompt marker
`Enter PIN on screen:` makes the handler return early leaving the whole
flag state (including `goOn`) unchanged. -/
theorem C3_pin_prompt_leaves_state (data : String) (st : PairState)
    (h : jsIncludes data "Enter PIN on screen:" = true) :
    stdoutHandler data st = st := by
  simp [stdoutHandler, h]

/-- C3, witness: the PIN-prompt line itself leaves the initial flag state
untouched. -/
theorem C3_witness :
    jsIncludes "Enter PIN on screen:" "Enter PIN on screen:" = true ∧
      stdoutHandler "Enter PIN on screen:" pairInitState = pairInitState :=
  ⟨by decide, C3_pin_prompt_leaves_state _ _ (by decide)⟩

/-- C4: a stdout line `BackOff=12s` sets `backOffSeconds` to 17 (the
parsed 12 plus the fixed 5-second margin) and the back-off loop before
the next pairing iteration then performs 17 one-second delay ticks. -/
theorem C4_backoff_17 :
    (stdoutHandler "BackOff=12s" pairInitState).backOffSeconds = some 17 ∧
      backOffWaitTicks (stdoutHandler "BackOff=12s" pairInitState).backOffSeconds = 17 := by
  decide

/-- C5, counterexample: with the accessory `INACTIVE`, a device-state
event from `playing` to `paused` still performs an indicator update —
the old value's `MotionDetected` characteristic is set to `false` before
the handler's inactive-return — refuting "no indicator update at
all". -/
theorem C5_counterexample :
    handleDeviceStateUpdate (fun n => n == "playing") INACTIVE (some "playing")
        (some "paused") = ([("playing", false)], none) ∧
      (handleDeviceStateUpdate (fun n => n == "playing") INACTIVE (some "playing")
        (some "paused")).1 ≠ [] := by
  decide

/-- C5, amended: while the accessory is `INACTIVE`, the device-state and
media-type handlers perform no new-indicator update and no media-state
update — every write they perform is the clearing (to `false`) of the
old value's `MotionDetected` characteristic, which happens before the
inactive check. -/
theorem C5_inactive_only_clears (dss mts : String → Bool) (active : Nat)
    (oldValue value : Option String) (h : active = INACTIVE) :
    (handleDeviceStateUpdate dss active oldValue value).2 = none ∧
      (∀ w ∈ (handleDeviceStateUpdate dss active oldValue value).1,
        w.2 = false ∧ oldValue = some w.1) ∧
      (∀ w ∈ handleMediaTypeUpdate mts active oldValue value,
        w.2 = false ∧ oldValue = some w.1) := by
  subst h
  refine ⟨by simp [handleDeviceStateUpdate], ?_, ?_⟩
  · intro w hw
    cases oldValue with
    | none => simp [handleDeviceStateUpdate] at hw
    | some ov =>
      by_cases hs : dss ov
      · simp [handleDeviceStateUpdate, hs] at hw
        subst hw
        exact ⟨rfl, rfl⟩
      · simp [handleDeviceStateUpdate, hs] at hw
  · intro w hw
    cases oldValue with
    | none => simp [handleMediaTypeUpdate] at hw
    | some ov =>
      by_cases hs : mts ov
      · simp [handleMediaTypeUpdate, hs] at hw
        subst hw
        exact ⟨rfl, rfl⟩
      · simp [handleMediaTypeUpdate, hs] at hw

/-- C5, witness: the amended statement applied at the counterexample's
concrete input. -/
theorem C5_witness :
    INACTIVE = INACTIVE ∧
      (handleDeviceStateUpdate (fun n => n == "playing") INACTIVE (some "playing")
        (some "paused")).2 = none :=
  ⟨rfl, (C5_inactive_only_clears (fun n => n == "playing") (fun _ => false) INACTIVE
    (some "playing") (some "paused") rfl).1⟩

/-- Running a trace from an already-closed state changes nothing: the
heartbeat interval is cleared and the `once` handler is spent. -/
theorem rrRun_closed : ∀ (evs : List RREvent) (s : RRState), s.closed = true →
    rrRun s evs = s
  | [], _, _ => rfl
  | e :: rest, s, hs => by
    have hstep : rrStep s e = s := by cases e <;> simp [rrStep, hs]
    show rrRun (rrStep s e) rest = s
    rw [hstep]
    exact rrRun_closed rest s hs

/-- Running a close-free trace from an open state: every tick is a
heartbeat write, the callback never fires. -/
theorem rrRun_no_close : ∀ (evs : List RREvent) (f h : Nat), RREvent.close ∉ evs →
    rrRun ⟨false, f, h⟩ evs = ⟨false, f, h + evs.length⟩
  | [], f, h, _ => by simp [rrRun]
  | e :: rest, f, h, hnc => by
    cases e with
    | close => exact absurd (List.mem_cons_self _ _) hnc
    | tick =>
      have hstep : rrStep ⟨false, f, h⟩ RREvent.tick = ⟨false, f, h + 1⟩ := by
        simp [rrStep]
      show rrRun (rrStep ⟨false, f, h⟩ RREvent.tick) rest = _
      rw [hstep, rrRun_no_close rest f (h + 1) (fun hm => hnc (List.mem_cons_of_mem _ hm))]
      simp
      omega

/-- Runs compose over trace concatenation. -/
theorem rrRun_append : ∀ (l1 l2 : List RREvent) (s : RRState),
    rrRun s (l1 ++ l2) = rrRun (rrRun s l1) l2
  | [], _, _ => rfl
  | e :: rest, l2, s => by
    show rrRun (rrStep s e) (rest ++ l2) = rrRun (rrRun (rrStep s e) rest) l2
    exact rrRun_append rest l2 (rrStep s e)

/-- C6: when the control subprocess exits after `onClose(f)` was
registered, the registered close callback fires exactly once and no
heartbeat write (`app_list\n` to stdin) happens after the exit: the
heartbeat write count at the end of the trace equals the count at the
moment of exit. -/
theorem C6_close_once (pre post : List RREvent)
    (h1 : RREvent.close ∉ pre) (_h2 : RREvent.close ∉ post) :
    (rrRun rrInit (pre ++ RREvent.close :: post)).cbFired = 1 ∧
      (rrRun rrInit (pre ++ RREvent.close :: post)).hbWrites
        = (rrRun rrInit pre).hbWrites := by
  have hpre : rrRun rrInit pre = ⟨false, 0, 0 + pre.length⟩ :=
    rrRun_no_close pre 0 0 h1
  have hclose : rrStep ⟨false, 0, 0 + pre.length⟩ RREvent.close
      = ⟨true, 1, 0 + pre.length⟩ := by simp [rrStep]
  have hfull : rrRun rrInit (pre ++ RREvent.close :: post) = ⟨true, 1, 0 + pre.length⟩ := by
    rw [rrRun_append pre _ rrInit, hpre]
    show rrRun (rrStep ⟨false, 0, 0 + pre.length⟩ RREvent.close) post = _
    rw [hclose]
    exact rrRun_closed post _ rfl
  rw [hfull, hpre]
  exact ⟨rfl, rfl⟩

/-- C6, witness: a tick, the close event, then a further timer tick —
the callback fired once and the post-exit tick wrote nothing. -/
theorem C6_witness :
    (RREvent.close ∉ [RREvent.tick]) ∧
      (rrRun rrInit ([RREvent.tick] ++ RREvent.close :: [RREvent.tick])).cbFired = 1 ∧
      (rrRun rrInit ([RREvent.tick] ++ RREvent.close :: [RREvent.tick])).hbWrites
        = (rrRun rrInit [RREvent.tick]).hbWrites :=
  ⟨by decide, C6_close_once [RREvent.tick] [RREvent.tick] (by decide) (by decide)⟩

/-- The environment is already satisfied: plugin dir and venv exist, the
interpreter version is supported (within the set in effect after the
openssl step), the venv python home equals the system python home, the
venv pip version equals the latest published pip version, and every
pinned requirement of the manifest in effect is installed at exactly the
pinned version. -/
def pySatisfied (env : PyEnv) : Prop :=
  env.pluginDirExists = true ∧
    isVenvCreated env = true ∧
    (supportedVersions (opensslLegacy env)).any
      (fun e => jsIncludes (systemPythonVersion env) e) = true ∧
    jsTrim env.venvPythonHomeRaw = jsTrim env.systemPythonHomeRaw ∧
    venvPipVersion env = env.latestPipVersion ∧
    areRequirementsSatisfied { env := env, legacy := opensslLegacy env } = true

/-- C7: with a satisfied environment, `allInOne(false)` leaves the
environment unchanged and performs neither a venv-creation subprocess
nor any pip-install subprocess (`pip install -r`, or the pip
self-upgrade), so a second run in succession performs no mutating
action. -/
theorem C7_idempotent (env : PyEnv) (h : pySatisfied env) :
    (allInOne env false).1.env = env ∧
      ∀ a ∈ (allInOne env false).2,
        a ≠ PyAction.createVenvCmd ∧ a ≠ PyAction.pipInstallCmd ∧
          a ≠ PyAction.pipUpgradeCmd := by
  obtain ⟨h1, h2, h3, h4, h5, h6⟩ := h
  cases hl : opensslLegacy env <;>
    rw [hl] at h3 h6 <;>
    simp [allInOne, ensurePluginDir, stepOpenssl, ensurePythonVersion, ensureVenvCreated,
      ensureVenvPythonHome, ensureVenvPipUpToDate, ensureVenvReqs,
      h1, h2, h3, h4, h5, h6, hl]

/-- C7, witness: the concrete satisfied environment. -/
theorem C7_witness :
    pySatisfied pyEnvSat ∧ (allInOne pyEnvSat false).1.env = pyEnvSat :=
  ⟨by unfold pySatisfied; decide, (C7_idempotent pyEnvSat (by unfold pySatisfied; decide)).1⟩

/-- C8: credentials written by `saveCredentials` and then read back by
`getCredentials` come back trimmed: the read value is exactly
`credentials.trim()`. -/
theorem C8_round_trip (fs : FileSys) (c : String) :
    (getCredentials (saveCredentials fs c)).1 = jsTrim c := by
  simp [getCredentials, saveCredentials, getPath]

/-- C9: for the POST body `a=1&b=2&c=3&d=4`, the reconstructed PIN is
`1234`, equals the concatenation of the characters at index 2 of each
`&`-separated field, and the listener writes the PIN followed by a
newline to the pairing subprocess's stdin. -/
theorem C9_pin_extraction :
    extractPin "a=1&b=2&c=3&d=4" = "1234" ∧
      pinStdinWrite "a=1&b=2&c=3&d=4" = "1234\n" ∧
      extractPin "a=1&b=2&c=3&d=4"
        = String.join ((jsSplit "a=1&b=2&c=3&d=4" "&").map (fun e => jsCharAt e 2)) := by
  decide

/-- C10: `getPath` writes its default with the exclusive flag and
swallows the already-exists error, so an existing per-device artifact
keeps its content under every read-path operation and the default is
written only when the file does not exist; in particular
`getCredentials` leaves an existing `credentials.txt` untouched and
returns its trimmed content. -/
theorem C10_getPath_preserves (fs : FileSys) (file dflt : String) :
    (∀ c, fs file = some c → getPath fs file dflt = fs ∧ getPath fs file dflt file = some c) ∧
      (fs file = none → getPath fs file dflt file = some dflt) ∧
      (∀ c, fs "credentials.txt" = some c →
        (getCredentials fs).2 = fs ∧ (getCredentials fs).1 = jsTrim c) := by
  have key : ∀ c, fs file = some c → getPath fs file dflt = fs := by
    intro c h
    funext f
    by_cases hf : f = file
    · subst hf; simp [getPath, h]
    · simp [getPath, hf]
  refine ⟨fun c h => ⟨key c h, ?_⟩, fun h => by simp [getPath, h], fun c h => ?_⟩
  · rw [key c h]; exact h
  · have key2 : getPath fs "credentials.txt" "" = fs := by
      funext f
      by_cases hf : f = "credentials.txt"
      · subst hf; simp [getPath, h]
      · simp [getPath, hf]
    constructor
    · show getPath fs "credentials.txt" "" = fs
      exact key2
    · show jsTrim ((getPath fs "credentials.txt" "" "credentials.txt").getD "") = jsTrim c
      rw [key2, h]
      rfl

/-- A sample per-device directory that already holds a credentials
file. -/
def fsSample : FileSys :=
  fun f => if f = "credentials.txt" then some " abc " else none

/-- C10, witness: a directory already holding `credentials.txt` with
content ` abc ` is untouched by `getPath`, and `getCredentials` returns
the trimmed content. -/
theorem C10_witness :
    fsSample "credentials.txt" = some " abc " ∧
      getPath fsSample "credentials.txt" "" = fsSample ∧
      (getCredentials fsSample).1 = jsTrim " abc " :=
  ⟨by decide,
   ((C10_getPath_preserves fsSample "credentials.txt" "").1 " abc " (by decide)).1,
   ((C10_getPath_preserves fsSample "credentials.txt" "").2.2 " abc " (by decide)).2⟩

end ATVE
